import Mathlib

/-!
Shallow embedding of the dreswap_be (event-outfitter-backend) Go service:
the session cache (server/server.go), the three HTTP handlers
(handler/handlers.go), the request models (models/models.go), and the
style-suggestion response parsing of gemini/gemini.go.

External effects are made explicit: the Gemini AI client is a record of
oracle functions, the session-log file is a boolean file-system model plus
an event trace, and the session identifier (uuid.New().String()) is a
parameter. Machine bytes are Nat, Go int is Int (overflow is irrelevant to
the properties below). encoding/json is modelled by a small executable
JSON parser covering the shapes these endpoints exchange (objects, arrays,
strings, integer numbers, booleans, null); json.Unmarshal rejects trailing
non-whitespace, json.Decoder.Decode does not, matching the Go library.
-/

/-- models/models.go: GenerateRequest, the JSON data part of /generate. -/
structure GenerateRequest where
  eventType : String
  venue : String
  theme : String
deriving Repr, DecidableEq, Inhabited

/-- models/models.go: SwapStyleRequest, the JSON body of /swap-style. -/
structure SwapStyleRequest where
  styleIndex : Int
deriving Repr, DecidableEq, Inhabited

/-- server/server.go: SessionData, the per-session record. -/
structure SessionData where
  styles : List String
  imageData : List Nat
  mimeType : String
  requestData : GenerateRequest
deriving Repr, DecidableEq, Inhabited

/-- JSON values, as produced by encoding/json for the payloads in scope
(numbers restricted to integers, which is all these endpoints use). -/
inductive Json where
  | str : String → Json
  | num : Int → Json
  | bool : Bool → Json
  | null : Json
  | arr : List Json → Json
  | obj : List (String × Json) → Json
deriving Repr, Inhabited

/-- JSON whitespace, as in encoding/json. -/
def isJsonWs (c : Char) : Bool :=
  c = ' ' || c = '\t' || c = '\n' || c = '\r'

/-- Drop leading JSON whitespace. -/
def skipWs : List Char → List Char
  | [] => []
  | c :: cs => if isJsonWs c then skipWs cs else c :: cs

/-- Value of a hexadecimal digit, for \uXXXX escapes. -/
def hexDigitVal (c : Char) : Option Nat :=
  if '0' ≤ c ∧ c ≤ '9' then some (c.toNat - 48)
  else if 'a' ≤ c ∧ c ≤ 'f' then some (c.toNat - 87)
  else if 'A' ≤ c ∧ c ≤ 'F' then some (c.toNat - 55)
  else none

/-- Decode one JSON string escape (the character after the backslash). -/
def escChar (e : Char) (rest : List Char) : Option (Char × List Char) :=
  if e = '"' then some ('"', rest)
  else if e = '\\' then some ('\\', rest)
  else if e = '/' then some ('/', rest)
  else if e = 'b' then some (Char.ofNat 8, rest)
  else if e = 'f' then some (Char.ofNat 12, rest)
  else if e = 'n' then some (Char.ofNat 10, rest)
  else if e = 'r' then some (Char.ofNat 13, rest)
  else if e = 't' then some (Char.ofNat 9, rest)
  else if e = 'u' then
    match rest with
    | a :: b :: c :: d :: rest2 =>
      match hexDigitVal a, hexDigitVal b, hexDigitVal c, hexDigitVal d with
      | some x, some y, some z, some w =>
        some (Char.ofNat (x * 4096 + y * 256 + z * 16 + w), rest2)
      | _, _, _, _ => none
    | _ => none
  else none

/-- Parse the body of a JSON string after the opening quote, up to and
including the closing quote. Fueled by the input length. -/
def parseStringChars : Nat → List Char → Option (List Char × List Char)
  | 0, _ => none
  | Nat.succ fuel, cs =>
    match cs with
    | [] => none
    | '"' :: rest => some ([], rest)
    | '\\' :: rest =>
      match rest with
      | [] => none
      | e :: rest1 =>
        match escChar e rest1 with
        | none => none
        | some (c, rest2) =>
          (parseStringChars fuel rest2).map (fun p => (c :: p.1, p.2))
    | c :: rest =>
      if c.toNat < 32 then none
      else (parseStringChars fuel rest).map (fun p => (c :: p.1, p.2))

/-- Parse a JSON string body into a String. -/
def parseStringBody (cs : List Char) : Option (String × List Char) :=
  (parseStringChars (cs.length + 1) cs).map (fun p => (String.mk p.1, p.2))

/-- Take a maximal run of decimal digits. -/
def takeDigits : List Char → (List Char × List Char)
  | [] => ([], [])
  | c :: cs =>
    if '0' ≤ c ∧ c ≤ '9' then
      let p := takeDigits cs
      (c :: p.1, p.2)
    else ([], c :: cs)

/-- Numeric value of a digit run. -/
def digitsToNat (ds : List Char) : Nat :=
  ds.foldl (fun a c => a * 10 + (c.toNat - 48)) 0

/-- Parse a JSON integer literal (these endpoints only exchange integers). -/
def parseNumber (cs : List Char) : Option (Int × List Char) :=
  match cs with
  | '-' :: rest =>
    let p := takeDigits rest
    if p.1 = [] then none else some (-(digitsToNat p.1 : Int), p.2)
  | _ =>
    let p := takeDigits cs
    if p.1 = [] then none else some ((digitsToNat p.1 : Int), p.2)

mutual

/-- Parse one JSON value; fuel bounds recursion depth. -/
def parseValue : Nat → List Char → Option (Json × List Char)
  | 0, _ => none
  | Nat.succ fuel, cs =>
    match skipWs cs with
    | [] => none
    | '"' :: rest => (parseStringBody rest).map (fun p => (Json.str p.1, p.2))
    | '[' :: rest =>
      match skipWs rest with
      | ']' :: rest2 => some (Json.arr [], rest2)
      | rest2 => (parseElems fuel rest2).map (fun p => (Json.arr p.1, p.2))
    | '{' :: rest =>
      match skipWs rest with
      | '}' :: rest2 => some (Json.obj [], rest2)
      | rest2 => (parseMembers fuel rest2).map (fun p => (Json.obj p.1, p.2))
    | 't' :: 'r' :: 'u' :: 'e' :: rest => some (Json.bool true, rest)
    | 'f' :: 'a' :: 'l' :: 's' :: 'e' :: rest => some (Json.bool false, rest)
    | 'n' :: 'u' :: 'l' :: 'l' :: rest => some (Json.null, rest)
    | cs2 => (parseNumber cs2).map (fun p => (Json.num p.1, p.2))

/-- Parse the elements of a non-empty JSON array, up to the closing bracket. -/
def parseElems : Nat → List Char → Option (List Json × List Char)
  | 0, _ => none
  | Nat.succ fuel, cs =>
    match parseValue fuel cs with
    | none => none
    | some (v, rest) =>
      match skipWs rest with
      | ',' :: rest2 => (parseElems fuel rest2).map (fun p => (v :: p.1, p.2))
      | ']' :: rest2 => some ([v], rest2)
      | _ => none

/-- Parse the members of a non-empty JSON object, up to the closing brace. -/
def parseMembers : Nat → List Char → Option (List (String × Json) × List Char)
  | 0, _ => none
  | Nat.succ fuel, cs =>
    match skipWs cs with
    | '"' :: rest =>
      match parseStringBody rest with
      | none => none
      | some (key, rest2) =>
        match skipWs rest2 with
        | ':' :: rest3 =>
          match parseValue fuel rest3 with
          | none => none
          | some (v, rest4) =>
            match skipWs rest4 with
            | ',' :: rest5 =>
              (parseMembers fuel rest5).map (fun p => ((key, v) :: p.1, p.2))
            | '}' :: rest5 => some ([(key, v)], rest5)
            | _ => none
        | _ => none
    | _ => none

end

/-- Parse one JSON value from a string, returning the unconsumed tail. -/
def parseJson (s : String) : Option (Json × List Char) :=
  parseValue (2 * s.length + 2) s.toList

/-- Convert a parsed JSON array into a Go []string: every element must be
a string, as json.Unmarshal requires. -/
def jsonToStrings : List Json → Option (List String)
  | [] => some []
  | Json.str s :: rest => (jsonToStrings rest).map (fun l => s :: l)
  | _ :: _ => none

/-- json.Unmarshal(data, &styles) for styles of type []string: one JSON
value, only whitespace after it, an array of strings (null gives the nil
slice). -/
def unmarshalStringArray (s : String) : Except String (List String) :=
  match parseJson s with
  | none => Except.error "invalid JSON"
  | some (v, rest) =>
    if skipWs rest ≠ [] then Except.error "trailing data"
    else
      match v with
      | Json.arr xs =>
        match jsonToStrings xs with
        | some strs => Except.ok strs
        | none => Except.error "cannot unmarshal element into string"
      | Json.null => Except.ok []
      | _ => Except.error "cannot unmarshal value into string slice"

/-- Apply one JSON object member to a GenerateRequest, as json.Unmarshal
does field by field: a string value sets the matching field, null leaves
it, a value of another type is an error, unknown keys are ignored. -/
def setGenField (r : GenerateRequest) (kv : String × Json) :
    Except String GenerateRequest :=
  if kv.1 = "eventType" then
    match kv.2 with
    | Json.str s => Except.ok { r with eventType := s }
    | Json.null => Except.ok r
    | _ => Except.error "cannot unmarshal value into string field"
  else if kv.1 = "venue" then
    match kv.2 with
    | Json.str s => Except.ok { r with venue := s }
    | Json.null => Except.ok r
    | _ => Except.error "cannot unmarshal value into string field"
  else if kv.1 = "theme" then
    match kv.2 with
    | Json.str s => Except.ok { r with theme := s }
    | Json.null => Except.ok r
    | _ => Except.error "cannot unmarshal value into string field"
  else Except.ok r

/-- json.Unmarshal([]byte(jsonData), &reqData) for models.GenerateRequest:
missing fields keep their zero value, the empty string. -/
def decodeGenerateRequest (s : String) : Except String GenerateRequest :=
  match parseJson s with
  | none => Except.error "invalid JSON"
  | some (v, rest) =>
    if skipWs rest ≠ [] then Except.error "trailing data"
    else
      match v with
      | Json.obj kvs => kvs.foldlM setGenField ⟨"", "", ""⟩
      | Json.null => Except.ok ⟨"", "", ""⟩
      | _ => Except.error "cannot unmarshal value into struct"

/-- Apply one JSON object member to a SwapStyleRequest. -/
def setSwapField (r : SwapStyleRequest) (kv : String × Json) :
    Except String SwapStyleRequest :=
  if kv.1 = "styleIndex" then
    match kv.2 with
    | Json.num n => Except.ok { r with styleIndex := n }
    | Json.null => Except.ok r
    | _ => Except.error "cannot unmarshal value into int field"
  else Except.ok r

/-- json.NewDecoder(r.Body).Decode(&swapReq) for models.SwapStyleRequest:
one JSON value (the Decoder does not reject trailing data); a missing
styleIndex keeps the zero value 0. -/
def decodeSwapStyleRequest (s : String) : Except String SwapStyleRequest :=
  match parseJson s with
  | none => Except.error "invalid JSON or EOF"
  | some (v, _) =>
    match v with
    | Json.obj kvs => kvs.foldlM setSwapField ⟨0⟩
    | Json.null => Except.ok ⟨0⟩
    | _ => Except.error "cannot unmarshal value into struct"

/-- strings.Index(s, "[") for a one-byte needle: byte index of the first
occurrence, or -1 (char index coincides for the ASCII needles used). -/
def stringsIndexCharAux : List Char → Char → Nat → Int
  | [], _, _ => -1
  | c :: cs, t, i => if c = t then (i : Int) else stringsIndexCharAux cs t (i + 1)

/-- strings.Index over our char-list model of the string. -/
def stringsIndexChar (s : String) (t : Char) : Int :=
  stringsIndexCharAux s.toList t 0

/-- strings.LastIndex(s, "]") for a one-byte needle: index of the last
occurrence, or -1. -/
def stringsLastIndexCharAux : List Char → Char → Nat → Int → Int
  | [], _, _, acc => acc
  | c :: cs, t, i, acc =>
    stringsLastIndexCharAux cs t (i + 1) (if c = t then (i : Int) else acc)

/-- strings.LastIndex over our char-list model of the string. -/
def stringsLastIndexChar (s : String) (t : Char) : Int :=
  stringsLastIndexCharAux s.toList t 0 (-1)

/-- The Go slice s[start:stop] over the char-list model. -/
def sliceString (s : String) (start stop : Nat) : String :=
  String.mk ((s.toList.drop start).take (stop - start))

/-- gemini/gemini.go GetStyleSuggestions, lines 135-156: the pure parsing
of the concatenated Gemini response text. Empty text is an error; the
substring from strings.Index(text, "[") to strings.LastIndex(text, "]")
inclusive is unmarshalled as a JSON array of strings; a missing bracket
pair or an unmarshal failure is a format error. -/
def getStyleSuggestionsParse (fullResponseText : String) :
    Except String (List String) :=
  if fullResponseText = "" then
    Except.error "no text content found in Gemini response"
  else
    let startIndex := stringsIndexChar fullResponseText '['
    let endIndex := stringsLastIndexChar fullResponseText ']'
    if startIndex = -1 ∨ endIndex = -1 ∨ endIndex < startIndex then
      Except.error "could not find a valid JSON array in the AI response"
    else
      let jsonString :=
        sliceString fullResponseText startIndex.toNat (endIndex.toNat + 1)
      match unmarshalStringArray jsonString with
      | Except.error _ =>
        Except.error "failed to unmarshal style suggestions JSON"
      | Except.ok styles => Except.ok styles

/-- server/server.go: SessionCache, the map from session id to record,
modelled as an association list where the most recent insert shadows. -/
def SessionCache : Type := List (String × SessionData)

/-- Map read: s.SessionCache[sessionID] with its found flag folded into
Option. -/
def cacheGet : SessionCache → String → Option SessionData
  | [], _ => none
  | (k, v) :: rest, key => if k = key then some v else cacheGet rest key

/-- Map write: s.SessionCache[sessionID] = sessionData. -/
def cacheInsert (c : SessionCache) (k : String) (v : SessionData) :
    SessionCache :=
  (k, v) :: c

/-- The Gemini client as an oracle: gemini.GetStyleSuggestions on the three
event parameters, and gemini.GenerateImage on (imgData, mimeType, the
three event parameters, styleDescription). -/
structure AIClient where
  suggestStyles : GenerateRequest → Except String (List String)
  generateImage : List Nat → String → GenerateRequest → String →
    Except String (List Nat × String)

/-- Whether os.OpenFile and f.WriteString on session.log succeed; the
handler only logs their failures. -/
structure FileSys where
  openOk : Bool
  writeOk : Bool
deriving Repr, DecidableEq

/-- Observable side effects of a handler run, in order. -/
inductive Event where
  | fileAppend (name : String) (content : String)
  | fileOpenFailed
  | fileWriteFailed
  | store (id : String)
deriving Repr, DecidableEq

/-- Outcome of GenerateHandler past the multipart stage (the HTTP status
and body of handlers.go lines 38-144). -/
inductive GenOutcome where
  | badRequest (msg : String)
  | serverError (msg : String)
  | ok (img : List Nat) (mime : String) (sessionID : String)
deriving Repr

/-- handler/handlers.go GenerateHandler, lines 38-144, after the multipart
form and MIME sniffing produced jsonData, imgData and mimeType: decode the
data part, ask Gemini for styles, reject an empty style list, write the
fresh session id to session.log (failures only logged), store the record,
generate the first image with styles[0], and answer with the image and the
X-Session-ID header. Returns the response, the cache afterwards, and the
event trace. -/
def generateHandler (ai : AIClient) (fs : FileSys) (sid : String)
    (jsonData : String) (imgData : List Nat) (mimeType : String)
    (cache : SessionCache) : GenOutcome × SessionCache × List Event :=
  match decodeGenerateRequest jsonData with
  | Except.error _ => (GenOutcome.badRequest "Invalid JSON data provided.", cache, [])
  | Except.ok reqData =>
    match ai.suggestStyles reqData with
    | Except.error _ =>
      (GenOutcome.serverError "Failed to get style suggestions.", cache, [])
    | Except.ok styles =>
      match styles with
      | [] =>
        (GenOutcome.serverError "No style suggestions could be generated.", cache, [])
      | style0 :: _ =>
        let logEvents :=
          if fs.openOk then
            if fs.writeOk then [Event.fileAppend "session.log" (sid ++ "\n")]
            else [Event.fileWriteFailed]
          else [Event.fileOpenFailed]
        let sessionData : SessionData := ⟨styles, imgData, mimeType, reqData⟩
        let cache2 := cacheInsert cache sid sessionData
        let trace := logEvents ++ [Event.store sid]
        match ai.generateImage sessionData.imageData sessionData.mimeType
            sessionData.requestData style0 with
        | Except.error _ =>
          (GenOutcome.serverError "Failed to generate initial image.", cache2, trace)
        | Except.ok (img, mime) =>
          (GenOutcome.ok img mime sid, cache2, trace)

/-- Outcome of GetStylesHandler. -/
inductive StylesOutcome where
  | badRequest (msg : String)
  | notFound (msg : String)
  | ok (styles : List String)
deriving Repr, DecidableEq

/-- handler/handlers.go GetStylesHandler, lines 219-238: require the
X-Session-ID header, look the session up, and encode its styles verbatim. -/
def getStylesHandler (sessionID : String) (cache : SessionCache) :
    StylesOutcome × SessionCache :=
  if sessionID = "" then
    (StylesOutcome.badRequest "Missing X-Session-ID header.", cache)
  else
    match cacheGet cache sessionID with
    | none => (StylesOutcome.notFound "Session expired or invalid.", cache)
    | some sessionData => (StylesOutcome.ok sessionData.styles, cache)

/-- Outcome of SwapStyleHandler. -/
inductive SwapOutcome where
  | badRequest (msg : String)
  | notFound (msg : String)
  | serverError (msg : String)
  | ok (img : List Nat) (mime : String)
deriving Repr

/-- handler/handlers.go SwapStyleHandler, lines 155-208: require the
X-Session-ID header, decode the body, look the session up, range-check
styleIndex against the stored styles, and regenerate the image from the
stored inputs at that index. -/
def swapStyleHandler (ai : AIClient) (sessionID : String) (body : String)
    (cache : SessionCache) : SwapOutcome × SessionCache :=
  if sessionID = "" then
    (SwapOutcome.badRequest "Missing X-Session-ID header.", cache)
  else
    match decodeSwapStyleRequest body with
    | Except.error _ => (SwapOutcome.badRequest "Invalid request body.", cache)
    | Except.ok swapReq =>
      match cacheGet cache sessionID with
      | none => (SwapOutcome.notFound "Session expired or invalid.", cache)
      | some sessionData =>
        if swapReq.styleIndex < 0 ∨
            (sessionData.styles.length : Int) ≤ swapReq.styleIndex then
          (SwapOutcome.badRequest "Invalid style index.", cache)
        else
          match ai.generateImage sessionData.imageData sessionData.mimeType
              sessionData.requestData
              (sessionData.styles.getD swapReq.styleIndex.toNat "") with
          | Except.error _ =>
            (SwapOutcome.serverError "Failed to generate swapped image.", cache)
          | Except.ok (img, mime) => (SwapOutcome.ok img mime, cache)

/-- One inbound request against the service, with the oracle results and
fresh identifier it would use. Requests are interleaved by running a list
of them; the mutex in server.go makes the cache accesses linearizable, so
a sequential run over the cache is the concurrency model. -/
inductive Op where
  | generate (ai : AIClient) (fs : FileSys) (sid : String)
      (jsonData : String) (imgData : List Nat) (mimeType : String)
  | listStyles (sessionID : String)
  | swapStyle (ai : AIClient) (sessionID : String) (body : String)

/-- The cache after one request is served. -/
def stepCache (cache : SessionCache) : Op → SessionCache
  | Op.generate ai fs sid jsonData imgData mimeType =>
    (generateHandler ai fs sid jsonData imgData mimeType cache).2.1
  | Op.listStyles sessionID => (getStylesHandler sessionID cache).2
  | Op.swapStyle ai sessionID body =>
    (swapStyleHandler ai sessionID body cache).2

/-- The cache after a sequence of requests is served in order. -/
def runOps (cache : SessionCache) : List Op → SessionCache
  | [] => cache
  | op :: ops => runOps (stepCache cache op) ops

/-- An operation does not reuse a given session identifier for a fresh
session: true of every generate whose uuid differs (uuid collisions are
the one probabilistic exception the spec also sets aside). -/
def avoidsId (id : String) : Op → Prop
  | Op.generate _ _ sid _ _ _ => sid ≠ id
  | Op.listStyles _ => True
  | Op.swapStyle _ _ _ => True

/-- Position of the first occurrence of a character, if any. -/
def firstIdx? : List Char → Char → Option Nat
  | [], _ => none
  | c :: cs, t =>
    if c = t then some 0 else (firstIdx? cs t).map (fun k => k + 1)

/-- Position of the last occurrence of a character, if any. -/
def lastIdx? : List Char → Char → Option Nat
  | [], _ => none
  | c :: cs, t =>
    match lastIdx? cs t with
    | some k => some (k + 1)
    | none => if c = t then some 0 else none

/-- Modelled from the spec (claim C4 as stated): locate the first
bracketed span — from the first occurrence of the opening bracket to the
first closing bracket at or after it — and unmarshal that span as a JSON
array of strings; absence of such a span or an unmarshal failure is a
format error. This definition follows the claim wording, for comparison
with getStyleSuggestionsParse. -/
def firstSpanParse (fullResponseText : String) : Except String (List String) :=
  if fullResponseText = "" then
    Except.error "no text content found in Gemini response"
  else
    match firstIdx? fullResponseText.toList '[' with
    | none => Except.error "could not find a valid JSON array in the AI response"
    | some i =>
      match firstIdx? (fullResponseText.toList.drop i) ']' with
      | none =>
        Except.error "could not find a valid JSON array in the AI response"
      | some j =>
        match unmarshalStringArray (sliceString fullResponseText i (i + j + 1)) with
        | Except.error _ =>
          Except.error "failed to unmarshal style suggestions JSON"
        | Except.ok styles => Except.ok styles

/-- Amended reading of the located span: the first occurrence of the
opening bracket through the last occurrence of the closing bracket,
stated recursively and independently of the Go scanning loops. -/
def lastSpanParse (fullResponseText : String) : Except String (List String) :=
  if fullResponseText = "" then
    Except.error "no text content found in Gemini response"
  else
    match firstIdx? fullResponseText.toList '[',
        lastIdx? fullResponseText.toList ']' with
    | some i, some j =>
      if j < i then
        Except.error "could not find a valid JSON array in the AI response"
      else
        match unmarshalStringArray (sliceString fullResponseText i (j + 1)) with
        | Except.error _ =>
          Except.error "failed to unmarshal style suggestions JSON"
        | Except.ok styles => Except.ok styles
    | _, _ =>
      Except.error "could not find a valid JSON array in the AI response"

theorem stringsIndexCharAux_eq (cs : List Char) (t : Char) (i : Nat) :
    stringsIndexCharAux cs t i =
      match firstIdx? cs t with
      | none => -1
      | some k => ((i + k : Nat) : Int) := by
  induction cs generalizing i with
  | nil => rfl
  | cons c cs ih =>
    simp only [stringsIndexCharAux, firstIdx?]
    by_cases h : c = t
    · simp [h]
    · simp only [h, if_false]
      rw [ih]
      cases hf : firstIdx? cs t with
      | none => simp
      | some k =>
        show (((i + 1) + k : Nat) : Int) = ((i + (k + 1) : Nat) : Int)
        congr 1
        omega

theorem stringsLastIndexCharAux_eq (cs : List Char) (t : Char) (i : Nat)
    (acc : Int) :
    stringsLastIndexCharAux cs t i acc =
      match lastIdx? cs t with
      | none => acc
      | some k => ((i + k : Nat) : Int) := by
  induction cs generalizing i acc with
  | nil => rfl
  | cons c cs ih =>
    simp only [stringsLastIndexCharAux, lastIdx?]
    rw [ih]
    cases hf : lastIdx? cs t with
    | some k =>
      simp only []
      congr 1
      omega
    | none =>
      simp only []
      by_cases h : c = t <;> simp [h]

/-- Claim C4 (amended): GetStyleSuggestions extracts the span from the
first occurrence of the opening bracket to the LAST occurrence of the
closing bracket (strings.Index and strings.LastIndex), not to the first
matching close; that span is unmarshalled as a JSON array of strings, and
a missing bracket pair, a close before the open, or an unmarshal failure
is a format error. -/
theorem C4_theorem (text : String) :
    getStyleSuggestionsParse text = lastSpanParse text := by
  unfold getStyleSuggestionsParse lastSpanParse stringsIndexChar
    stringsLastIndexChar
  by_cases he : text = ""
  · simp [he]
  · simp only [he, if_false]
    rw [stringsIndexCharAux_eq, stringsLastIndexCharAux_eq]
    cases h1 : firstIdx? text.toList '[' with
    | none => cases h2 : lastIdx? text.toList ']' <;> simp
    | some i =>
      cases h2 : lastIdx? text.toList ']' with
      | none => simp
      | some j =>
        simp only [Nat.zero_add]
        by_cases hji : j < i
        · rw [if_pos (by omega), if_pos hji]
        · rw [if_neg (by omega), if_neg hji]
          norm_num

theorem cacheGet_insert_self (cache : SessionCache) (k : String)
    (v : SessionData) : cacheGet (cacheInsert cache k v) k = some v := by
  show (if k = k then some v else cacheGet cache k) = some v
  rw [if_pos rfl]

theorem cacheGet_insert_ne (cache : SessionCache) (k : String)
    (v : SessionData) (sid : String) (h : k ≠ sid) :
    cacheGet (cacheInsert cache k v) sid = cacheGet cache sid := by
  show (if k = sid then some v else cacheGet cache sid) = cacheGet cache sid
  rw [if_neg h]

theorem generateHandler_cache (ai : AIClient) (fs : FileSys) (sid : String)
    (jsonData : String) (imgData : List Nat) (mimeType : String)
    (cache : SessionCache) :
    (generateHandler ai fs sid jsonData imgData mimeType cache).2.1 = cache ∨
    ∃ sd, (generateHandler ai fs sid jsonData imgData mimeType cache).2.1 =
      cacheInsert cache sid sd := by
  unfold generateHandler
  cases hdec : decodeGenerateRequest jsonData with
  | error e => left; rfl
  | ok reqData =>
    dsimp only
    cases hsty : ai.suggestStyles reqData with
    | error e => left; rfl
    | ok styles =>
      dsimp only
      cases styles with
      | nil => left; rfl
      | cons s0 rest =>
        dsimp only
        right
        refine ⟨⟨s0 :: rest, imgData, mimeType, reqData⟩, ?_⟩
        cases himg : ai.generateImage imgData mimeType reqData s0 with
        | error e => simp [himg]
        | ok p =>
          obtain ⟨img, mime⟩ := p
          simp [himg]

theorem getStylesHandler_cache (sid : String) (cache : SessionCache) :
    (getStylesHandler sid cache).2 = cache := by
  unfold getStylesHandler
  split
  · rfl
  · split <;> rfl

theorem swapStyleHandler_cache (ai : AIClient) (sid body : String)
    (cache : SessionCache) :
    (swapStyleHandler ai sid body cache).2 = cache := by
  unfold swapStyleHandler
  split
  · rfl
  · split
    · rfl
    · split
      · rfl
      · split
        · rfl
        · split <;> rfl

theorem stepCache_preserves (cache : SessionCache) (op : Op) (sid : String)
    (h : avoidsId sid op) :
    cacheGet (stepCache cache op) sid = cacheGet cache sid := by
  cases op with
  | generate ai fs sid2 jsonData imgData mimeType =>
    show cacheGet (generateHandler ai fs sid2 jsonData imgData mimeType cache).2.1 sid =
      cacheGet cache sid
    rcases generateHandler_cache ai fs sid2 jsonData imgData mimeType cache with
      hc | ⟨sd, hc⟩
    · rw [hc]
    · rw [hc, cacheGet_insert_ne cache sid2 sd sid h]
  | listStyles sid2 =>
    show cacheGet (getStylesHandler sid2 cache).2 sid = cacheGet cache sid
    rw [getStylesHandler_cache]
  | swapStyle ai sid2 body =>
    show cacheGet (swapStyleHandler ai sid2 body cache).2 sid = cacheGet cache sid
    rw [swapStyleHandler_cache]

/-- A canned Gemini client whose calls always succeed. -/
def testClient : AIClient where
  suggestStyles _ := Except.ok ["s1", "s2"]
  generateImage _ _ _ _ := Except.ok ([7], "image/png")

/-- A canned Gemini client whose image generation always fails. -/
def failImgClient : AIClient where
  suggestStyles _ := Except.ok ["s1", "s2"]
  generateImage _ _ _ _ := Except.error "model failure"

/-- A canned Gemini client whose style suggestion always fails. -/
def failStyleClient : AIClient where
  suggestStyles _ := Except.error "model failure"
  generateImage _ _ _ _ := Except.ok ([7], "image/png")

/-- A canned Gemini client that returns an empty style list. -/
def emptyStyleClient : AIClient where
  suggestStyles _ := Except.ok []
  generateImage _ _ _ _ := Except.ok ([7], "image/png")

/-- The empty generate request, the zero value of the Go struct. -/
def req0 : GenerateRequest := ⟨"", "", ""⟩

/-- A concrete stored session record. -/
def sd0 : SessionData := ⟨["s1", "s2"], [1], "image/jpeg", req0⟩

/-- A cache holding exactly the session id1 with record sd0. -/
def c0 : SessionCache := [("id1", sd0)]

/-- A concrete mixed sequence of requests that never reuses id1. -/
def demoOps : List Op :=
  [Op.listStyles "id1", Op.swapStyle testClient "id1" "\x7b\x7d",
   Op.generate testClient ⟨true, true⟩ "id2" "\x7b\x7d" [2] "image/png"]

theorem generateHandler_eq (ai : AIClient) (fs : FileSys) (sid jsonData : String)
    (imgData : List Nat) (mimeType : String) (cache : SessionCache)
    (reqData : GenerateRequest) (s0 : String) (rest : List String)
    (hdec : decodeGenerateRequest jsonData = Except.ok reqData)
    (hsty : ai.suggestStyles reqData = Except.ok (s0 :: rest)) :
    generateHandler ai fs sid jsonData imgData mimeType cache =
      ((match ai.generateImage imgData mimeType reqData s0 with
        | Except.error _ =>
          GenOutcome.serverError "Failed to generate initial image."
        | Except.ok (img, mime) => GenOutcome.ok img mime sid),
       cacheInsert cache sid ⟨s0 :: rest, imgData, mimeType, reqData⟩,
       (if fs.openOk then
          if fs.writeOk then [Event.fileAppend "session.log" (sid ++ "\n")]
          else [Event.fileWriteFailed]
        else [Event.fileOpenFailed]) ++ [Event.store sid]) := by
  unfold generateHandler
  rw [hdec]
  dsimp only
  rw [hsty]
  dsimp only
  cases himg : ai.generateImage imgData mimeType reqData s0 with
  | error e => rfl
  | ok p =>
    obtain ⟨img, mime⟩ := p
    rfl

/-- Claim C7: a record stored under a session identifier survives any
subsequent sequence of requests unchanged, field for field, as long as no
later generate reuses that identifier: list and swap never write the
cache, and generate only inserts under its own fresh identifier. -/
theorem C7_theorem (ops : List Op) (sid : String) (sd : SessionData) :
    ∀ cache : SessionCache, cacheGet cache sid = some sd →
      (∀ op ∈ ops, avoidsId sid op) →
      cacheGet (runOps cache ops) sid = some sd := by
  induction ops with
  | nil =>
    intro cache hget _
    exact hget
  | cons op ops ih =>
    intro cache hget havoid
    exact ih (stepCache cache op)
      (by
        rw [stepCache_preserves cache op sid (havoid op (List.mem_cons_self op ops))]
        exact hget)
      (fun op2 hm => havoid op2 (List.mem_cons_of_mem op hm))

/-- Witness for C7 at a concrete cache and request sequence. -/
theorem C7_witness :
    cacheGet c0 "id1" = some sd0 ∧
    (∀ op ∈ demoOps, avoidsId "id1" op) ∧
    cacheGet (runOps c0 demoOps) "id1" = some sd0 := by
  have havoid : ∀ op ∈ demoOps, avoidsId "id1" op := by
    intro op hm
    fin_cases hm <;> simp [avoidsId]
  exact ⟨rfl, havoid, C7_theorem demoOps "id1" sd0 c0 rfl havoid⟩

/-- Claim C1: when the Gemini client returns at least one style and a
valid image, the session identifier returned by GenerateHandler, passed to
GetStylesHandler against the resulting cache, yields exactly the style
list stored at creation, verbatim and in the same order. -/
theorem C1_theorem (ai : AIClient) (fs : FileSys) (sid jsonData : String)
    (imgData : List Nat) (mimeType : String) (cache : SessionCache)
    (reqData : GenerateRequest) (s0 : String) (rest : List String)
    (img : List Nat) (mime : String)
    (hsid : sid ≠ "")
    (hdec : decodeGenerateRequest jsonData = Except.ok reqData)
    (hsty : ai.suggestStyles reqData = Except.ok (s0 :: rest))
    (himg : ai.generateImage imgData mimeType reqData s0 =
      Except.ok (img, mime)) :
    (generateHandler ai fs sid jsonData imgData mimeType cache).1 =
      GenOutcome.ok img mime sid ∧
    (getStylesHandler sid
      (generateHandler ai fs sid jsonData imgData mimeType cache).2.1).1 =
      StylesOutcome.ok (s0 :: rest) := by
  rw [generateHandler_eq ai fs sid jsonData imgData mimeType cache reqData s0
    rest hdec hsty, himg]
  refine ⟨rfl, ?_⟩
  unfold getStylesHandler
  rw [if_neg hsid]
  dsimp only
  rw [cacheGet_insert_self]

/-- Witness for C1 at a concrete client, session id and input. -/
theorem C1_witness :
    ("id1" : String) ≠ "" ∧
    decodeGenerateRequest "\x7b\x7d" = Except.ok req0 ∧
    testClient.suggestStyles req0 = Except.ok ["s1", "s2"] ∧
    testClient.generateImage [1] "image/jpeg" req0 "s1" =
      Except.ok ([7], "image/png") ∧
    ((generateHandler testClient ⟨true, true⟩ "id1" "\x7b\x7d" [1] "image/jpeg" []).1 =
      GenOutcome.ok [7] "image/png" "id1" ∧
     (getStylesHandler "id1"
       (generateHandler testClient ⟨true, true⟩ "id1" "\x7b\x7d" [1]
         "image/jpeg" []).2.1).1 =
      StylesOutcome.ok ["s1", "s2"]) := by
  refine ⟨by decide, rfl, rfl, rfl, ?_⟩
  exact C1_theorem testClient ⟨true, true⟩ "id1" "\x7b\x7d" [1] "image/jpeg" []
    req0 "s1" ["s2"] [7] "image/png" (by decide) rfl rfl rfl

/-- Claim C2 counterexample: with a client whose image generation fails,
GenerateHandler on the empty cache answers a server error, yet the freshly
stored session IS found by a subsequent lookup, and ListStyles with that
identifier returns its styles — the claim says no record would be found. -/
theorem C2_counterexample :
    (generateHandler failImgClient ⟨true, true⟩ "id1" "\x7b\x7d" [1]
      "image/jpeg" []).1 =
      GenOutcome.serverError "Failed to generate initial image." ∧
    cacheGet (generateHandler failImgClient ⟨true, true⟩ "id1" "\x7b\x7d" [1]
      "image/jpeg" []).2.1 "id1" = some ⟨["s1", "s2"], [1], "image/jpeg", req0⟩ ∧
    (getStylesHandler "id1"
      (generateHandler failImgClient ⟨true, true⟩ "id1" "\x7b\x7d" [1]
        "image/jpeg" []).2.1).1 = StylesOutcome.ok ["s1", "s2"] :=
  ⟨rfl, rfl, rfl⟩

/-- Claim C2 (amended): if the image-generation step fails after the
session record was stored, the partial session REMAINS addressable: the
handler answers a server error, but a lookup with that identifier still
finds the stored record and ListStyles returns its style list — the
orphan-session leak the spec flags as the known reference behavior. -/
theorem C2_theorem (ai : AIClient) (fs : FileSys) (sid jsonData : String)
    (imgData : List Nat) (mimeType : String) (cache : SessionCache)
    (reqData : GenerateRequest) (s0 : String) (rest : List String) (e : String)
    (hsid : sid ≠ "")
    (hdec : decodeGenerateRequest jsonData = Except.ok reqData)
    (hsty : ai.suggestStyles reqData = Except.ok (s0 :: rest))
    (himg : ai.generateImage imgData mimeType reqData s0 = Except.error e) :
    (generateHandler ai fs sid jsonData imgData mimeType cache).1 =
      GenOutcome.serverError "Failed to generate initial image." ∧
    cacheGet (generateHandler ai fs sid jsonData imgData mimeType cache).2.1
      sid = some ⟨s0 :: rest, imgData, mimeType, reqData⟩ ∧
    (getStylesHandler sid
      (generateHandler ai fs sid jsonData imgData mimeType cache).2.1).1 =
      StylesOutcome.ok (s0 :: rest) := by
  rw [generateHandler_eq ai fs sid jsonData imgData mimeType cache reqData s0
    rest hdec hsty, himg]
  refine ⟨rfl, cacheGet_insert_self cache sid _, ?_⟩
  unfold getStylesHandler
  rw [if_neg hsid]
  dsimp only
  rw [cacheGet_insert_self]

/-- Witness for C2 at a concrete failing client. -/
theorem C2_witness :
    ("id1" : String) ≠ "" ∧
    decodeGenerateRequest "\x7b\x7d" = Except.ok req0 ∧
    failImgClient.suggestStyles req0 = Except.ok ["s1", "s2"] ∧
    failImgClient.generateImage [1] "image/jpeg" req0 "s1" =
      Except.error "model failure" ∧
    ((generateHandler failImgClient ⟨true, true⟩ "id1" "\x7b\x7d" [1]
       "image/jpeg" []).1 =
      GenOutcome.serverError "Failed to generate initial image." ∧
     cacheGet (generateHandler failImgClient ⟨true, true⟩ "id1" "\x7b\x7d" [1]
       "image/jpeg" []).2.1 "id1" =
      some ⟨["s1", "s2"], [1], "image/jpeg", req0⟩ ∧
     (getStylesHandler "id1"
       (generateHandler failImgClient ⟨true, true⟩ "id1" "\x7b\x7d" [1]
         "image/jpeg" []).2.1).1 = StylesOutcome.ok ["s1", "s2"]) := by
  refine ⟨by decide, rfl, rfl, rfl, ?_⟩
  exact C2_theorem failImgClient ⟨true, true⟩ "id1" "\x7b\x7d" [1] "image/jpeg" []
    req0 "s1" ["s2"] "model failure" (by decide) rfl rfl rfl

/-- Claim C6: if the style-description step errors or returns zero styles,
the whole operation fails with a server error, the cache is unchanged, no
side effect happens, and no session identifier is issued (the failing
outcomes carry none). -/
theorem C6_theorem (ai : AIClient) (fs : FileSys) (sid jsonData : String)
    (imgData : List Nat) (mimeType : String) (cache : SessionCache)
    (reqData : GenerateRequest)
    (hdec : decodeGenerateRequest jsonData = Except.ok reqData) :
    (∀ e, ai.suggestStyles reqData = Except.error e →
      generateHandler ai fs sid jsonData imgData mimeType cache =
        (GenOutcome.serverError "Failed to get style suggestions.",
         cache, [])) ∧
    (ai.suggestStyles reqData = Except.ok [] →
      generateHandler ai fs sid jsonData imgData mimeType cache =
        (GenOutcome.serverError "No style suggestions could be generated.",
         cache, [])) := by
  constructor
  · intro e hsty
    unfold generateHandler
    rw [hdec]
    dsimp only
    rw [hsty]
  · intro hsty
    unfold generateHandler
    rw [hdec]
    dsimp only
    rw [hsty]

/-- Witness for C6 at a failing and an empty-list client. -/
theorem C6_witness :
    decodeGenerateRequest "\x7b\x7d" = Except.ok req0 ∧
    failStyleClient.suggestStyles req0 = Except.error "model failure" ∧
    emptyStyleClient.suggestStyles req0 = Except.ok [] ∧
    generateHandler failStyleClient ⟨true, true⟩ "id1" "\x7b\x7d" [1]
      "image/jpeg" [] =
      (GenOutcome.serverError "Failed to get style suggestions.", [], []) ∧
    generateHandler emptyStyleClient ⟨true, true⟩ "id1" "\x7b\x7d" [1]
      "image/jpeg" [] =
      (GenOutcome.serverError "No style suggestions could be generated.",
       [], []) := by
  refine ⟨rfl, rfl, rfl, ?_, ?_⟩
  · exact (C6_theorem failStyleClient ⟨true, true⟩ "id1" "\x7b\x7d" [1]
      "image/jpeg" [] req0 rfl).1 "model failure" rfl
  · exact (C6_theorem emptyStyleClient ⟨true, true⟩ "id1" "\x7b\x7d" [1]
      "image/jpeg" [] req0 rfl).2 rfl

/-- Claim C4 counterexample: on the response text ["a"] ["b"] the claimed
rule — parse the span from the first open bracket to the first matching
close bracket — succeeds with the singleton list, but the code spans to
the LAST close bracket and fails to unmarshal, answering a format error. -/
theorem C4_counterexample :
    firstSpanParse "[\"a\"] [\"b\"]" = Except.ok ["a"] ∧
    getStyleSuggestionsParse "[\"a\"] [\"b\"]" =
      Except.error "failed to unmarshal style suggestions JSON" :=
  ⟨rfl, rfl⟩

/-- Claim C8 counterexample: the empty JSON object data part omits eventType, venue
and theme, yet it decodes to the zero-valued request and GenerateHandler
proceeds to the AI calls and succeeds — no validation error is raised
before any AI call. -/
theorem C8_counterexample :
    decodeGenerateRequest "\x7b\x7d" = Except.ok ⟨"", "", ""⟩ ∧
    (generateHandler testClient ⟨true, true⟩ "id1" "\x7b\x7d" [1]
      "image/jpeg" []).1 = GenOutcome.ok [7] "image/png" "id1" :=
  ⟨rfl, rfl⟩

/-- Claim C8 (amended): GenerateHandler performs no presence validation on
eventType, venue and theme: the empty-object data part — which omits all three —
decodes with every field as the empty string, and the handler proceeds to
the AI calls and succeeds whenever they do, issuing a session. -/
theorem C8_theorem (ai : AIClient) (fs : FileSys) (sid : String)
    (imgData : List Nat) (mimeType : String) (cache : SessionCache)
    (s0 : String) (rest : List String) (img : List Nat) (mime : String)
    (hsty : ai.suggestStyles ⟨"", "", ""⟩ = Except.ok (s0 :: rest))
    (himg : ai.generateImage imgData mimeType ⟨"", "", ""⟩ s0 =
      Except.ok (img, mime)) :
    (generateHandler ai fs sid "\x7b\x7d" imgData mimeType cache).1 =
      GenOutcome.ok img mime sid := by
  rw [generateHandler_eq ai fs sid "\x7b\x7d" imgData mimeType cache ⟨"", "", ""⟩
    s0 rest rfl hsty, himg]

/-- Witness for C8 at a concrete client. -/
theorem C8_witness :
    testClient.suggestStyles ⟨"", "", ""⟩ = Except.ok ["s1", "s2"] ∧
    testClient.generateImage [1] "image/jpeg" ⟨"", "", ""⟩ "s1" =
      Except.ok ([7], "image/png") ∧
    (generateHandler testClient ⟨true, true⟩ "id1" "\x7b\x7d" [1]
      "image/jpeg" []).1 = GenOutcome.ok [7] "image/png" "id1" :=
  ⟨rfl, rfl, C8_theorem testClient ⟨true, true⟩ "id1" [1] "image/jpeg" []
    "s1" ["s2"] [7] "image/png" rfl rfl⟩

/-- Claim C10: on every path that reaches session creation, the handler
appends the fresh session identifier plus a newline to session.log before
storing the record (the append event precedes the store event in the
trace), and a failure to open or write that file changes neither the
response nor the cache. -/
theorem C10_theorem (ai : AIClient) (fs fs2 : FileSys) (sid jsonData : String)
    (imgData : List Nat) (mimeType : String) (cache : SessionCache)
    (reqData : GenerateRequest) (s0 : String) (rest : List String)
    (hdec : decodeGenerateRequest jsonData = Except.ok reqData)
    (hsty : ai.suggestStyles reqData = Except.ok (s0 :: rest)) :
    (generateHandler ai ⟨true, true⟩ sid jsonData imgData mimeType
      cache).2.2 =
      [Event.fileAppend "session.log" (sid ++ "\n"), Event.store sid] ∧
    (generateHandler ai fs sid jsonData imgData mimeType cache).1 =
      (generateHandler ai fs2 sid jsonData imgData mimeType cache).1 ∧
    (generateHandler ai fs sid jsonData imgData mimeType cache).2.1 =
      (generateHandler ai fs2 sid jsonData imgData mimeType cache).2.1 := by
  rw [generateHandler_eq ai ⟨true, true⟩ sid jsonData imgData mimeType cache
      reqData s0 rest hdec hsty,
    generateHandler_eq ai fs sid jsonData imgData mimeType cache reqData s0
      rest hdec hsty,
    generateHandler_eq ai fs2 sid jsonData imgData mimeType cache reqData s0
      rest hdec hsty]
  exact ⟨rfl, rfl, rfl⟩

/-- Witness for C10 at a concrete client and two failing file systems. -/
theorem C10_witness :
    decodeGenerateRequest "\x7b\x7d" = Except.ok req0 ∧
    testClient.suggestStyles req0 = Except.ok ["s1", "s2"] ∧
    ((generateHandler testClient ⟨true, true⟩ "id1" "\x7b\x7d" [1]
       "image/jpeg" []).2.2 =
      [Event.fileAppend "session.log" ("id1" ++ "\n"), Event.store "id1"] ∧
     (generateHandler testClient ⟨false, true⟩ "id1" "\x7b\x7d" [1]
       "image/jpeg" []).1 =
      (generateHandler testClient ⟨true, false⟩ "id1" "\x7b\x7d" [1]
        "image/jpeg" []).1 ∧
     (generateHandler testClient ⟨false, true⟩ "id1" "\x7b\x7d" [1]
       "image/jpeg" []).2.1 =
      (generateHandler testClient ⟨true, false⟩ "id1" "\x7b\x7d" [1]
        "image/jpeg" []).2.1) :=
  ⟨rfl, rfl, C10_theorem testClient ⟨false, true⟩ ⟨true, false⟩ "id1" "\x7b\x7d"
    [1] "image/jpeg" [] req0 "s1" ["s2"] rfl rfl⟩

theorem swapStyleHandler_eq (ai : AIClient) (sid body : String)
    (cache : SessionCache) (req : SwapStyleRequest) (sd : SessionData)
    (hsid : sid ≠ "") (hdec : decodeSwapStyleRequest body = Except.ok req)
    (hget : cacheGet cache sid = some sd) :
    swapStyleHandler ai sid body cache =
      (if req.styleIndex < 0 ∨ (sd.styles.length : Int) ≤ req.styleIndex then
        (SwapOutcome.badRequest "Invalid style index.", cache)
       else
        ((match ai.generateImage sd.imageData sd.mimeType sd.requestData
            (sd.styles.getD req.styleIndex.toNat "") with
          | Except.error _ =>
            SwapOutcome.serverError "Failed to generate swapped image."
          | Except.ok (img, mime) => SwapOutcome.ok img mime), cache)) := by
  unfold swapStyleHandler
  rw [if_neg hsid]
  rw [hdec]
  dsimp only
  rw [hget]
  dsimp only
  by_cases hidx : req.styleIndex < 0 ∨ (sd.styles.length : Int) ≤ req.styleIndex
  · rw [if_pos hidx, if_pos hidx]
  · rw [if_neg hidx, if_neg hidx]
    cases himg : ai.generateImage sd.imageData sd.mimeType sd.requestData
        (sd.styles.getD req.styleIndex.toNat "") with
    | error e => rfl
    | ok p =>
      obtain ⟨img, mime⟩ := p
      rfl

/-- Claim C3: for a stored session whose styles have length L, SwapStyle
with an index in the interval from 0 inclusive to L exclusive reaches the
image-generation step — its outcome is decided by the AI call — while any
index outside that interval answers the validation error, and in every
case the cache is unchanged. -/
theorem C3_theorem (ai : AIClient) (sid body : String) (cache : SessionCache)
    (req : SwapStyleRequest) (sd : SessionData)
    (hsid : sid ≠ "") (hdec : decodeSwapStyleRequest body = Except.ok req)
    (hget : cacheGet cache sid = some sd) :
    ((0 ≤ req.styleIndex ∧ req.styleIndex < (sd.styles.length : Int)) →
      (∀ img mime,
        ai.generateImage sd.imageData sd.mimeType sd.requestData
          (sd.styles.getD req.styleIndex.toNat "") = Except.ok (img, mime) →
        (swapStyleHandler ai sid body cache).1 = SwapOutcome.ok img mime) ∧
      (∀ e,
        ai.generateImage sd.imageData sd.mimeType sd.requestData
          (sd.styles.getD req.styleIndex.toNat "") = Except.error e →
        (swapStyleHandler ai sid body cache).1 =
          SwapOutcome.serverError "Failed to generate swapped image.")) ∧
    ((req.styleIndex < 0 ∨ (sd.styles.length : Int) ≤ req.styleIndex) →
      (swapStyleHandler ai sid body cache).1 =
        SwapOutcome.badRequest "Invalid style index.") ∧
    (swapStyleHandler ai sid body cache).2 = cache := by
  rw [swapStyleHandler_eq ai sid body cache req sd hsid hdec hget]
  refine ⟨?_, ?_, ?_⟩
  · intro hin
    have hcond : ¬(req.styleIndex < 0 ∨
        (sd.styles.length : Int) ≤ req.styleIndex) := by
      push_neg
      exact ⟨hin.1, hin.2⟩
    rw [if_neg hcond]
    constructor
    · intro img mime himg
      rw [himg]
    · intro e himg
      rw [himg]
  · intro hout
    rw [if_pos hout]
  · by_cases hidx : req.styleIndex < 0 ∨
        (sd.styles.length : Int) ≤ req.styleIndex
    · rw [if_pos hidx]
    · rw [if_neg hidx]

/-- Witness for C3 at a concrete session, one in-range and one
out-of-range index. -/
theorem C3_witness :
    ("id1" : String) ≠ "" ∧
    decodeSwapStyleRequest "\x7b\"styleIndex\": 1\x7d" = Except.ok ⟨1⟩ ∧
    decodeSwapStyleRequest "\x7b\"styleIndex\": 7\x7d" = Except.ok ⟨7⟩ ∧
    cacheGet c0 "id1" = some sd0 ∧
    (swapStyleHandler testClient "id1" "\x7b\"styleIndex\": 1\x7d" c0).1 =
      SwapOutcome.ok [7] "image/png" ∧
    (swapStyleHandler testClient "id1" "\x7b\"styleIndex\": 7\x7d" c0).1 =
      SwapOutcome.badRequest "Invalid style index." ∧
    (swapStyleHandler testClient "id1" "\x7b\"styleIndex\": 7\x7d" c0).2 = c0 := by
  refine ⟨by decide, rfl, rfl, rfl, ?_, ?_, ?_⟩
  · exact ((C3_theorem testClient "id1" "\x7b\"styleIndex\": 1\x7d" c0 ⟨1⟩ sd0
      (by decide) rfl rfl).1 (by constructor <;> decide)).1 [7] "image/png" rfl
  · exact (C3_theorem testClient "id1" "\x7b\"styleIndex\": 7\x7d" c0 ⟨7⟩ sd0
      (by decide) rfl rfl).2.1 (by right; decide)
  · exact (C3_theorem testClient "id1" "\x7b\"styleIndex\": 7\x7d" c0 ⟨7⟩ sd0
      (by decide) rfl rfl).2.2

/-- Claim C5: a session identifier that was never created has no record,
so ListStyles and SwapStyle (with any well-formed body) answer not-found
and the cache is unchanged. -/
theorem C5_theorem (ai : AIClient) (sid body : String) (cache : SessionCache)
    (req : SwapStyleRequest)
    (hsid : sid ≠ "") (hget : cacheGet cache sid = none)
    (hdec : decodeSwapStyleRequest body = Except.ok req) :
    getStylesHandler sid cache =
      (StylesOutcome.notFound "Session expired or invalid.", cache) ∧
    swapStyleHandler ai sid body cache =
      (SwapOutcome.notFound "Session expired or invalid.", cache) := by
  constructor
  · unfold getStylesHandler
    rw [if_neg hsid]
    rw [hget]
  · unfold swapStyleHandler
    rw [if_neg hsid]
    rw [hdec]
    dsimp only
    rw [hget]

/-- Witness for C5 at a concrete unknown identifier. -/
theorem C5_witness :
    ("nope" : String) ≠ "" ∧
    cacheGet c0 "nope" = none ∧
    decodeSwapStyleRequest "\x7b\x7d" = Except.ok ⟨0⟩ ∧
    (getStylesHandler "nope" c0 =
      (StylesOutcome.notFound "Session expired or invalid.", c0) ∧
     swapStyleHandler testClient "nope" "\x7b\x7d" c0 =
      (SwapOutcome.notFound "Session expired or invalid.", c0)) := by
  refine ⟨by decide, rfl, rfl, ?_⟩
  exact C5_theorem testClient "nope" "\x7b\x7d" c0 ⟨0⟩ (by decide) rfl rfl

/-- Claim C9: a swap body that omits styleIndex, such as the empty object,
is not rejected as invalid: it decodes with the index as the zero value 0,
and against a session with a non-empty style list the request proceeds as
a swap to the first stored style. -/
theorem C9_theorem (ai : AIClient) (sid : String) (cache : SessionCache)
    (sd : SessionData) (s0 : String) (rest : List String)
    (hsid : sid ≠ "") (hget : cacheGet cache sid = some sd)
    (hstyles : sd.styles = s0 :: rest) :
    decodeSwapStyleRequest "\x7b\x7d" = Except.ok ⟨0⟩ ∧
    (∀ img mime,
      ai.generateImage sd.imageData sd.mimeType sd.requestData s0 =
        Except.ok (img, mime) →
      swapStyleHandler ai sid "\x7b\x7d" cache = (SwapOutcome.ok img mime, cache)) := by
  refine ⟨rfl, ?_⟩
  intro img mime himg
  rw [swapStyleHandler_eq ai sid "\x7b\x7d" cache ⟨0⟩ sd hsid rfl hget]
  have hcond : ¬((⟨0⟩ : SwapStyleRequest).styleIndex < 0 ∨
      (sd.styles.length : Int) ≤ (⟨0⟩ : SwapStyleRequest).styleIndex) := by
    dsimp only
    push_neg
    constructor
    · omega
    · rw [hstyles]
      exact_mod_cast Nat.succ_pos rest.length
  rw [if_neg hcond]
  have hg : sd.styles.getD (⟨0⟩ : SwapStyleRequest).styleIndex.toNat "" = s0 := by
    rw [hstyles]
    rfl
  rw [hg, himg]

/-- Witness for C9 at a concrete session and client. -/
theorem C9_witness :
    ("id1" : String) ≠ "" ∧
    cacheGet c0 "id1" = some sd0 ∧
    sd0.styles = "s1" :: ["s2"] ∧
    testClient.generateImage sd0.imageData sd0.mimeType sd0.requestData
      "s1" = Except.ok ([7], "image/png") ∧
    swapStyleHandler testClient "id1" "\x7b\x7d" c0 =
      (SwapOutcome.ok [7] "image/png", c0) := by
  refine ⟨by decide, rfl, rfl, rfl, ?_⟩
  exact (C9_theorem testClient "id1" c0 sd0 "s1" ["s2"] (by decide) rfl
    rfl).2 [7] "image/png" rfl
